/-
  Verification of the `orchestrator` repository: a shallow embedding in Lean 4
  of its envelope extractor, chat route handler, stub agent pipeline, settings
  loader, CustomGPT client classification logic, and the exception-class
  bindings produced by executing `orchestrator/clients/customgpt.py`
  (a module that redefines several names; Python binds each name to the
  last definition executed).

  String operations are modelled structurally over `List Char`, mirroring the
  Python operations used by the source (`str.replace`, `str.split`,
  `str.strip`, `str.rstrip`, slicing, `"\n".join`).  `str.strip()` is modelled
  over the ASCII whitespace set.
-/
import Mathlib

set_option maxRecDepth 100000

namespace Orchestrator

/-! ### Python string primitives, modelled over `List Char` -/

/-- Python `str.strip()` whitespace test (ASCII whitespace set). -/
def pyIsSpace (c : Char) : Bool :=
  c = ' ' || c = '\t' || c = '\n' || c = '\r' || c = '\x0b' || c = '\x0c'

/-- Python `str.strip()` on a character list: drop leading and trailing
whitespace. -/
def stripChars (cs : List Char) : List Char :=
  ((cs.dropWhile pyIsSpace).reverse.dropWhile pyIsSpace).reverse

/-- Models `content.replace("\r\n", "\n").replace("\r", "\n")` from
`_extract_orchestrated_text` (router.py line 93): every `"\r\n"` pair
collapses to `"\n"`, every remaining `"\r"` becomes `"\n"`. -/
def normalizeChars : List Char → List Char
  | [] => []
  | '\r' :: '\n' :: rest => '\n' :: normalizeChars rest
  | '\r' :: rest => '\n' :: normalizeChars rest
  | c :: rest => c :: normalizeChars rest

/-- Python `s.split("\n")` on a character list. -/
def splitOnNewline : List Char → List (List Char)
  | [] => [[]]
  | '\n' :: rest => [] :: splitOnNewline rest
  | c :: rest =>
    match splitOnNewline rest with
    | [] => [[c]]
    | l :: ls => (c :: l) :: ls

/-- Index of the first line satisfying `p` (Python `for index, line in
enumerate(lines)` with a `break`). -/
def findLineIdx (p : List Char → Bool) : List (List Char) → Option Nat
  | [] => none
  | l :: ls => if p l then some 0 else (findLineIdx p ls).map (· + 1)

/-- Python `"\n".join(lines)` on character lists. -/
def joinLines : List (List Char) → List Char
  | [] => []
  | [l] => l
  | l :: ls => l ++ '\n' :: joinLines ls

/-- Python `s.rstrip("\n")`: drop trailing newline characters. -/
def rstripNewlines (cs : List Char) : List Char :=
  (cs.reverse.dropWhile (· = '\n')).reverse

/-! ### Envelope extractor (`router.py`, `_extract_orchestrated_text`) -/

/-- Embeds `_ORCHESTRATOR_HEADER` (router.py line 85). -/
def ORCHESTRATOR_HEADER : String := "[ORCHESTRATOR → A.C.E]"

/-- Embeds `_USER_TEXT_BEGIN` (router.py line 86). -/
def USER_TEXT_BEGIN : String := "USER_TEXT_BEGIN"

/-- Embeds `_USER_TEXT_END` (router.py line 87). -/
def USER_TEXT_END : String := "USER_TEXT_END"

/-- The normalized line list of the input
(`normalized.split("\n")`, router.py lines 93-94). -/
def envelopeLines (content : String) : List (List Char) :=
  splitOnNewline (normalizeChars content.data)

/-- Evaluates `next((line for line in lines if line.strip()), "")` (router.py line 96):
the first line whose `strip()` is non-empty, unstripped; `""` if none. -/
def first_non_blank_line (content : String) : List Char :=
  ((envelopeLines content).find? (fun l => !(stripChars l).isEmpty)).getD []

/-- The sentinel-scanning part of `_extract_orchestrated_text`
(router.py lines 100-118), run once the header matched: locate the line
after the first `USER_TEXT_BEGIN` (return the input unchanged when there is
none), locate the first `USER_TEXT_END` at or after it (to end of input when
there is none), join the lines strictly between them with `"\n"` and strip
trailing newlines. -/
def extract_envelope_payload (content : String) : String :=
  let lines := envelopeLines content
  match (findLineIdx (fun l => stripChars l = USER_TEXT_BEGIN.data) lines).map (· + 1) with
  | none => content
  | some beginIdx =>
    let endIdx :=
      (findLineIdx (fun l => stripChars l = USER_TEXT_END.data) (lines.drop beginIdx)).map
        (· + beginIdx)
    let extracted :=
      match endIdx with
      | none => lines.drop beginIdx
      | some e => (lines.take e).drop beginIdx
    ⟨rstripNewlines (joinLines extracted)⟩

/-- Embeds `_extract_orchestrated_text` (router.py lines 90-118).  The unstripped
first non-blank line is compared with the header (line 97); on mismatch the
input is returned unchanged, otherwise the sentinel scan runs. -/
def extract_orchestrated_text (content : String) : String :=
  if first_non_blank_line content ≠ ORCHESTRATOR_HEADER.data then content
  else extract_envelope_payload content

/-- Input of the repository test
`test_orchestrate_chat_handles_leading_whitespace_in_header`
(tests/test_routes.py): the marker header carries three leading spaces. -/
def whitespacePaddedEnvelope : String :=
  "   [ORCHESTRATOR → A.C.E]\nUSER_TEXT_BEGIN\nHello\nUSER_TEXT_END"

/-! ### Stub agents (`agents/researcher.py`, `planner.py`, `builder.py`,
`reviewer.py`; the `*Agent` classes imported by `agents/__init__.py`) -/

/-- Embeds `ResearchAgent.run` : `f"Researching: {prompt}"`. -/
def ResearchAgent_run (prompt : String) : String := "Researching: " ++ prompt

/-- Embeds `PlanningAgent.run` : `f"Plan based on: {research_summary}"`. -/
def PlanningAgent_run (research_summary : String) : String :=
  "Plan based on: " ++ research_summary

/-- Embeds `BuilderAgent.run` : `f"Draft based on: {plan}"`. -/
def BuilderAgent_run (plan : String) : String := "Draft based on: " ++ plan

/-- Embeds `ReviewerAgent.run` : `f"Review of: {draft}"`. -/
def ReviewerAgent_run (draft : String) : String := "Review of: " ++ draft

/-! ### Chat route data model (`router.py`) -/

/-- The `role` literal of `ChatMessage` (router.py line 40). -/
inductive Role
  | user
  | assistant
  | system
deriving DecidableEq

/-- Embeds `ChatMessage` (router.py lines 37-41). -/
structure ChatMessage where
  role : Role
  content : String
deriving DecidableEq

/-- Embeds `ChatRequest` (router.py lines 44-49); `context` is unused by the
handler and omitted. -/
structure ChatRequest where
  conversation_id : String
  messages : List ChatMessage
deriving DecidableEq

/-- Embeds `ChatStep` (router.py lines 52-56). -/
structure ChatStep where
  agent : String
  output : String
deriving DecidableEq

/-- Embeds `ChatResponse` (router.py lines 59-64). -/
structure ChatResponse where
  conversation_id : String
  reply : String
  steps : List ChatStep
deriving DecidableEq

/-- Outcome of the `orchestrate_chat` handler: an `HTTPException` with a
status code and detail, the bare `HTTPException(204)` raised on empty
extraction, or a `ChatResponse`. -/
inductive ChatOutcome
  | httpError (status : Nat) (detail : String)
  | noContent
  | ok (resp : ChatResponse)
deriving DecidableEq

/-- Embeds `_get_latest_user_message` (router.py lines 73-82): first user-role
message of `reversed(messages)`, `none` when the 400 `HTTPException` is
raised. -/
def get_latest_user_message (messages : List ChatMessage) : Option ChatMessage :=
  messages.reverse.find? (fun m => m.role = Role.user)

/-- Python `"\n\n".join(parts)`. -/
def joinBlankLine : List String → String
  | [] => ""
  | [s] => s
  | s :: rest => s ++ "\n\n" ++ joinBlankLine rest

/-- The pipeline part of `orchestrate_chat` (router.py lines 138-151):
chain the four stub agents over the extracted text, join the stage outputs
with blank lines, and record one `ChatStep` per stage in order. -/
def pipeline_response (conversation_id text : String) : ChatResponse :=
  let research_summary := ResearchAgent_run text
  let plan := PlanningAgent_run research_summary
  let draft := BuilderAgent_run plan
  let review := ReviewerAgent_run draft
  { conversation_id := conversation_id
    reply := joinBlankLine [research_summary, plan, draft, review]
    steps :=
      [⟨"researcher", research_summary⟩, ⟨"planner", plan⟩,
       ⟨"builder", draft⟩, ⟨"reviewer", review⟩] }

/-- Embeds `orchestrate_chat` (router.py lines 121-151). -/
def orchestrate_chat (request : ChatRequest) : ChatOutcome :=
  if request.messages.isEmpty then
    .httpError 400 "Conversation history must include at least one message."
  else
    match get_latest_user_message request.messages with
    | none =>
      .httpError 400 "At least one user message is required to generate a response."
    | some latest =>
      let extracted_content := extract_orchestrated_text latest.content
      if extracted_content = "" then .noContent
      else .ok (pipeline_response request.conversation_id extracted_content)

/-! ### Settings loader (`config.py`) -/

/-- Embeds `Settings` (config.py lines 14-20). -/
structure Settings where
  customgpt_api_key : String
  customgpt_api_base : String := "https://app.customgpt.ai/api/v1"
  orchestrator_base_url : Option String := none
deriving DecidableEq

/-- A process environment: an association list from variable names to
values (`os.environ`). -/
def Env := List (String × String)

/-- Models `os.getenv(key)`: the first binding of `key`, `none` when unset. -/
def getenv (env : Env) (key : String) : Option String :=
  (env.find? (fun p => p.1 = key)).map (·.2)

/-- Models `os.getenv(key, default)`. -/
def getenvD (env : Env) (key : String) (default : String) : String :=
  (getenv env key).getD default

/-- Python truthiness of `Optional[str]`: `None` and `""` are falsy. -/
def strOptTruthy : Option String → Bool
  | none => false
  | some s => !s.isEmpty

/-- Embeds `_load_settings` (config.py lines 23-37): raises `RuntimeError` when
`CUSTOMGPT_API_KEY` is unset or empty (Python `if not api_key`), otherwise
builds `Settings` from the environment.  Only `CUSTOMGPT_API_BASE` is read
for the base URL (line 30). -/
def load_settings (env : Env) : Except String Settings :=
  let api_key := getenv env "CUSTOMGPT_API_KEY"
  if !strOptTruthy api_key then
    .error "CUSTOMGPT_API_KEY environment variable is required"
  else
    .ok
      { customgpt_api_key := api_key.getD ""
        customgpt_api_base :=
          getenvD env "CUSTOMGPT_API_BASE" "https://app.customgpt.ai/api/v1"
        orchestrator_base_url := getenv env "ORCHESTRATOR_BASE_URL" }

/-! ### CustomGPT client operations (`clients/customgpt.py`)

The module defines `update_conversation` on the dataclass client
(lines 99-154) and `get_conversation_messages` on the final client
(lines 190-256).  Both issue a `urllib.request.urlopen` call; its outcome is
either a successful response (status and body) or an `HTTPError` /
`URLError`. -/

/-- JSON values, the image of Python `json.loads`. -/
inductive PyJson
  | dict (entries : List (String × PyJson))
  | arr (elems : List PyJson)
  | str (s : String)
  | num (n : Int)
  | bool (b : Bool)
  | null

/-- Outcome of `urllib.request.urlopen` as seen by the client code:
a response with status code and body, an `error.HTTPError` with a status
code, or an `error.URLError`. -/
inductive TransportOutcome
  | success (status : Nat) (body : String)
  | httpError (code : Nat)
  | urlError

/-- Result of a client operation: the returned value, or one of the raised
exception kinds (`CustomGPTClientError`, `CustomGPTServerError`, the generic
`CustomGPTError`, or Python `ValueError`). -/
inductive ClientResult
  | ok (value : PyJson)
  | clientError (msg : String)
  | serverError (msg : String)
  | genericError (msg : String)
  | valueError

/-- Holds when `r` is a `CustomGPTClientError`. -/
def ClientResult.isClientError : ClientResult → Bool
  | .clientError _ => true
  | _ => false

/-- Holds when `r` is a `CustomGPTServerError`. -/
def ClientResult.isServerError : ClientResult → Bool
  | .serverError _ => true
  | _ => false

/-- Holds when `r` is a generic `CustomGPTError`. -/
def ClientResult.isGenericError : ClientResult → Bool
  | .genericError _ => true
  | _ => false

/-- Holds when `r` is a successful return. -/
def ClientResult.isOk : ClientResult → Bool
  | .ok _ => true
  | _ => false

/-- Embeds `CustomGPTClient.update_conversation` (customgpt.py lines 99-154),
classification of the transport outcome.  `decoded` stands for
`json.loads(body)` (`none` = `json.JSONDecodeError`); the request-building
part (URL, payload, headers) is not modelled. -/
def update_conversation_classify (t : TransportOutcome) (decoded : Option PyJson) :
    ClientResult :=
  match t with
  | .httpError code =>
    if 400 ≤ code ∧ code < 500 then
      .clientError ("CustomGPT rejected the request (status " ++ toString code ++ ").")
    else if 500 ≤ code then
      .serverError ("CustomGPT encountered an error (status " ++ toString code ++ ").")
    else
      .genericError
        ("Unexpected response status " ++ toString code ++ " from CustomGPT API.")
  | .urlError => .genericError "Failed to reach CustomGPT API"
  | .success status body =>
    if 200 ≤ status ∧ status < 300 then
      if !body.isEmpty then
        match decoded with
        | some v => .ok v
        | none => .genericError "Invalid JSON received from CustomGPT API"
      else .ok (.dict [])
    else if 400 ≤ status ∧ status < 500 then
      .clientError ("CustomGPT rejected the request (status " ++ toString status ++ ").")
    else if 500 ≤ status then
      .serverError ("CustomGPT encountered an error (status " ++ toString status ++ ").")
    else
      .genericError
        ("Unexpected response status " ++ toString status ++ " from CustomGPT API.")

/-- Is the JSON value a Python `dict`? (`isinstance(data, dict)`.) -/
def PyJson.isDict : PyJson → Bool
  | .dict _ => true
  | _ => false

/-- Embeds `CustomGPTClient.get_conversation_messages` (customgpt.py lines 190-256),
classification of the transport outcome after the `order` validation.
`decoded` stands for `json.loads(payload)`.  Every `HTTPError`, whatever its
code, is re-raised as the generic `CustomGPTError` (lines 239-243); a
non-dict decoded value is also a generic `CustomGPTError` (lines 253-254).
The `ValueError` message (line 226) is not carried. -/
def get_conversation_messages_classify (order : String) (t : TransportOutcome)
    (decoded : Option PyJson) : ClientResult :=
  if order ≠ "asc" ∧ order ≠ "desc" then .valueError
  else
    match t with
    | .httpError code =>
      .genericError ("CustomGPT API responded with HTTP " ++ toString code)
    | .urlError => .genericError "Failed to reach CustomGPT API"
    | .success _ _ =>
      match decoded with
      | none => .genericError "CustomGPT API returned malformed JSON."
      | some data =>
        if !data.isDict then
          .genericError "Unexpected response type received from CustomGPT API."
        else .ok data

/-! ### Exception classes bound by executing `clients/customgpt.py`

The module defines `CustomGPTError` twice: at line 72 (extending
`Exception`) and at line 158 (extending `RuntimeError`).
`CustomGPTClientError` (line 76) and `CustomGPTServerError` (line 80) extend
the line-72 class.  After the module executes, the name `CustomGPTError`
is bound to the line-158 class, and that binding is what `router.py`
imports. -/

/-- The exception classes involved, plus the relevant builtins. -/
inductive ExcClass
  | exceptionBase
  | runtimeErrorBase
  | customGPTErrorV1
  | customGPTClientError
  | customGPTServerError
  | customGPTErrorV2
deriving DecidableEq

/-- Direct base class of each class, per the `class` statements executed in
file order (`CustomGPTClientError(CustomGPTError)` at line 76 resolves
`CustomGPTError` to the line-72 class, the binding in effect then). -/
def ExcClass.base : ExcClass → Option ExcClass
  | .exceptionBase => none
  | .runtimeErrorBase => some .exceptionBase
  | .customGPTErrorV1 => some .exceptionBase
  | .customGPTClientError => some .customGPTErrorV1
  | .customGPTServerError => some .customGPTErrorV1
  | .customGPTErrorV2 => some .runtimeErrorBase

/-- Python `issubclass` with fuel (the hierarchy is finite and acyclic; depth 6
suffices). -/
def issubclassFuel : Nat → ExcClass → ExcClass → Bool
  | 0, _, _ => false
  | fuel + 1, c, d =>
    c = d ||
      match c.base with
      | none => false
      | some b => issubclassFuel fuel b d

/-- Python `isinstance(exc, cls)` for an exception instance of class `c`. -/
def isinstance (c cls : ExcClass) : Bool := issubclassFuel 6 c cls

/-- The module-level binding of the name `CustomGPTError` once
`clients/customgpt.py` has executed (the line-158 definition wins), hence
the class `router.py` imports under that name. -/
def boundCustomGPTError : ExcClass := .customGPTErrorV2

/-- Embeds `_CUSTOMGPT_STATUS_MAP` (router.py lines 154-158), with `CustomGPTError`
resolved to the imported binding. -/
def CUSTOMGPT_STATUS_MAP : List (ExcClass × Nat) :=
  [(.customGPTClientError, 400), (.customGPTServerError, 502), (boundCustomGPTError, 500)]

/-- Outcome of running a route handler body whose `try` block raised a
CustomGPT exception instance of class `c`: an `HTTPException` response, or
the exception propagating uncaught out of the handler. -/
inductive RouteOutcome
  | http (status : Nat)
  | uncaught (c : ExcClass)
deriving DecidableEq

/-- Embeds `_raise_customgpt_exception` (router.py lines 161-175): scan
`_CUSTOMGPT_STATUS_MAP` for the first entry whose class matches
`isinstance`, raise the mapped `HTTPException`; re-raise the exception when
no entry matches. -/
def raise_customgpt_exception (c : ExcClass) : RouteOutcome :=
  match (CUSTOMGPT_STATUS_MAP.find? (fun p => isinstance c p.1)) with
  | some p => .http p.2
  | none => .uncaught c

/-- The `except CustomGPTError as exc: _raise_customgpt_exception(exc, ...)`
pattern shared by `list_project_conversations` (router.py lines 199-200) and
`update_conversation` (router.py lines 241-249): the clause only catches
instances of the imported `CustomGPTError` binding; any other exception
propagates uncaught. -/
def route_handle_customgpt_exc (c : ExcClass) : RouteOutcome :=
  if isinstance c boundCustomGPTError then raise_customgpt_exception c
  else .uncaught c

/-! ### Module execution model for `clients/customgpt.py` class bindings -/

/-- What the claims need of a Python class object: the required positional
parameters of its `__init__` (those without defaults, `self` excluded) and
the names its body defines. -/
structure PyClassDef where
  requiredPositional : List String
  attrs : List String
deriving DecidableEq

/-- The first `CustomGPTClient` definition (customgpt.py lines 11-50):
`__init__(self, *, api_key=None, base_url=None)` has no required positional
parameters; the body defines `list_conversations` and `close`. -/
def customGPTClientDef1 : PyClassDef :=
  { requiredPositional := []
    attrs := ["__init__", "list_conversations", "close"] }

/-- The second `CustomGPTClient` definition (customgpt.py lines 84-154), a
dataclass whose generated `__init__` takes `api_key` as a required
positional parameter; the body defines `_headers` and
`update_conversation`. -/
def customGPTClientDef2 : PyClassDef :=
  { requiredPositional := ["api_key"]
    attrs := ["_headers", "update_conversation"] }

/-- The third `CustomGPTClient` definition (customgpt.py lines 162-270):
`__init__(self, api_key, *, base_url=..., timeout=...)` takes `api_key` as
a required positional parameter; the body defines the two properties,
`get_conversation_messages` and `_build_messages_url`. -/
def customGPTClientDef3 : PyClassDef :=
  { requiredPositional := ["api_key"]
    attrs :=
      ["__init__", "api_key", "base_url", "get_conversation_messages",
       "_build_messages_url"] }

/-- The successive bindings of the module-level name `CustomGPTClient` as
`clients/customgpt.py` executes, in file order. -/
def customGPTClientBindings : List PyClassDef :=
  [customGPTClientDef1, customGPTClientDef2, customGPTClientDef3]

/-- The binding of `CustomGPTClient` once the module has executed: the last
definition wins. -/
def boundCustomGPTClient : PyClassDef :=
  customGPTClientBindings.getLastD customGPTClientDef1

/-- Result of evaluating a call expression `cls()` with no arguments:
Python raises `TypeError` when a required positional parameter is missing,
before the constructor body runs. -/
inductive CallResult
  | ok
  | typeError
deriving DecidableEq

/-- Evaluate `cls()` (argument binding only). -/
def callWithNoArgs (cls : PyClassDef) : CallResult :=
  if cls.requiredPositional.isEmpty then .ok else .typeError

/-- The first expression `get_customgpt_client` evaluates
(customgpt.py line 56): `CustomGPTClient()` on the module-level binding.
The generator yields a client only if this call succeeds. -/
def get_customgpt_client_call : CallResult := callWithNoArgs boundCustomGPTClient

/-! ## Theorems settling the claims -/

/-- C1: the mapping helper `_raise_customgpt_exception` would translate
`CustomGPTClientError` to HTTP 400, `CustomGPTServerError` to HTTP 502 and
the imported generic `CustomGPTError` to HTTP 500 — but the routes reach it
through `except CustomGPTError`, and that name is bound to the line-158
class, which is unrelated to `CustomGPTClientError` and
`CustomGPTServerError` (they extend the shadowed line-72 class).  A client
or server error raised inside the route body therefore propagates uncaught
instead of being mapped to 400/502; only the generic kind is mapped (to
500).  This contradicts the claimed route-layer mapping. -/
theorem router_customgpt_error_mapping_bug :
    raise_customgpt_exception .customGPTClientError = .http 400 ∧
    raise_customgpt_exception .customGPTServerError = .http 502 ∧
    raise_customgpt_exception boundCustomGPTError = .http 500 ∧
    route_handle_customgpt_exc .customGPTClientError = .uncaught .customGPTClientError ∧
    route_handle_customgpt_exc .customGPTServerError = .uncaught .customGPTServerError ∧
    route_handle_customgpt_exc boundCustomGPTError = .http 500 := by
  decide

/-- C2 counterexample, both divergences of `get_conversation_messages` from
the claim.  First, an upstream 404 surfaces as an `error.HTTPError` and is
raised as the generic `CustomGPTError` (customgpt.py lines 239-243), not as
`CustomGPTClientError` — refuting the [400,500) clause.  Second, a 200
response with an empty body is decoded with `json.loads("")`, which raises
`json.JSONDecodeError` (the `decoded` argument is therefore `none`), so the
operation raises the generic malformed-JSON `CustomGPTError` instead of
returning the empty mapping — refuting the empty-body clause. -/
theorem get_conversation_messages_violates_claim :
    (get_conversation_messages_classify "desc" (.httpError 404) none).isClientError = false ∧
    (get_conversation_messages_classify "desc" (.httpError 404) none).isGenericError = true ∧
    (get_conversation_messages_classify "desc" (.success 200 "") none).isOk = false ∧
    (get_conversation_messages_classify "desc" (.success 200 "") none).isGenericError = true := by
  decide

/-- C2 amended: `update_conversation` classifies exactly as the claim says —
2xx returns the decoded body (empty body gives the empty mapping),
[400,500) raises `CustomGPTClientError` and ≥500 raises
`CustomGPTServerError`, both for direct statuses and for `HTTPError` codes.
`get_conversation_messages` also returns the decoded body of a 2xx response
when it is a mapping, but it raises the generic `CustomGPTError` for every
`HTTPError` whatever its status, and for an empty 2xx body (whose
`json.loads` raises, making `decoded` equal `none`) it raises the generic
malformed-JSON `CustomGPTError` instead of returning the empty mapping. -/
theorem client_status_classification (s c : Nat) (body : String) (v : PyJson)
    (d : Option PyJson) (es : List (String × PyJson)) :
    (200 ≤ s → s < 300 →
      update_conversation_classify (.success s "") d = .ok (.dict [])) ∧
    (200 ≤ s → s < 300 → body ≠ "" →
      update_conversation_classify (.success s body) (some v) = .ok v) ∧
    (400 ≤ c → c < 500 →
      (update_conversation_classify (.httpError c) d).isClientError = true) ∧
    (500 ≤ c →
      (update_conversation_classify (.httpError c) d).isServerError = true) ∧
    (400 ≤ s → s < 500 →
      (update_conversation_classify (.success s body) d).isClientError = true) ∧
    (500 ≤ s →
      (update_conversation_classify (.success s body) d).isServerError = true) ∧
    (get_conversation_messages_classify "desc" (.httpError c) d).isGenericError = true ∧
    get_conversation_messages_classify "desc" (.success s body) (some (.dict es)) =
      .ok (.dict es) ∧
    (get_conversation_messages_classify "desc" (.success s "") none).isGenericError = true := by
  refine ⟨?_, ?_, ?_, ?_, ?_, ?_, ?_, ?_, ?_⟩
  · intro h1 h2
    simp only [update_conversation_classify]
    rw [if_pos ⟨h1, h2⟩]
    rfl
  · intro h1 h2 hb
    have hbe : body.isEmpty = false := by
      rw [Bool.eq_false_iff]
      intro hcontra
      exact hb ((String.isEmpty_iff body).mp hcontra)
    simp only [update_conversation_classify]
    rw [if_pos ⟨h1, h2⟩]
    simp [hbe]
  · intro h1 h2
    simp only [update_conversation_classify]
    rw [if_pos ⟨h1, h2⟩]
    rfl
  · intro h1
    simp only [update_conversation_classify]
    rw [if_neg (by omega), if_pos h1]
    rfl
  · intro h1 h2
    simp only [update_conversation_classify]
    rw [if_neg (by omega), if_pos ⟨h1, h2⟩]
    rfl
  · intro h1
    simp only [update_conversation_classify]
    rw [if_neg (by omega), if_neg (by omega), if_pos h1]
    rfl
  · simp only [get_conversation_messages_classify]
    rw [if_neg (by simp)]
    rfl
  · simp only [get_conversation_messages_classify]
    rw [if_neg (by simp)]
    rfl
  · simp only [get_conversation_messages_classify]
    rw [if_neg (by simp)]
    rfl

/-- C2 witness: the amended classification at concrete statuses. -/
theorem client_status_classification_witness :
    update_conversation_classify (.success 200 "") none = .ok (.dict []) ∧
    update_conversation_classify (.success 201 "x") (some (.dict [])) = .ok (.dict []) ∧
    (update_conversation_classify (.httpError 404) none).isClientError = true ∧
    (update_conversation_classify (.httpError 503) none).isServerError = true ∧
    (update_conversation_classify (.success 404 "x") none).isClientError = true ∧
    (update_conversation_classify (.success 503 "x") none).isServerError = true ∧
    (get_conversation_messages_classify "desc" (.httpError 404) none).isGenericError = true ∧
    get_conversation_messages_classify "desc" (.success 200 "x") (some (.dict [])) =
      .ok (.dict []) ∧
    (get_conversation_messages_classify "desc" (.success 200 "") none).isGenericError = true :=
  ⟨(client_status_classification 200 404 "" (.dict []) none []).1 (by decide) (by decide),
   (client_status_classification 201 503 "x" (.dict []) none []).2.1
     (by decide) (by decide) (by decide),
   (client_status_classification 200 404 "x" (.dict []) none []).2.2.1 (by decide) (by decide),
   (client_status_classification 201 503 "x" (.dict []) none []).2.2.2.1 (by decide),
   (client_status_classification 404 404 "x" (.dict []) none []).2.2.2.2.1
     (by decide) (by decide),
   (client_status_classification 503 503 "x" (.dict []) none []).2.2.2.2.2.1 (by decide),
   (client_status_classification 200 404 "x" (.dict []) none []).2.2.2.2.2.2.1,
   (client_status_classification 200 404 "x" (.dict []) none []).2.2.2.2.2.2.2.1,
   (client_status_classification 200 404 "x" (.dict []) none []).2.2.2.2.2.2.2.2⟩

/-- C3: once `clients/customgpt.py` has executed, the name
`CustomGPTClient` is bound to the last definition in the file, whose
`__init__` requires the positional `api_key` argument and whose body defines
neither `list_conversations`, `update_conversation` nor `close`; evaluating
`CustomGPTClient()` in `get_customgpt_client` therefore raises `TypeError`
before the generator can yield a client. -/
theorem get_customgpt_client_always_type_error :
    get_customgpt_client_call = CallResult.typeError ∧
    boundCustomGPTClient = customGPTClientDef3 ∧
    boundCustomGPTClient.requiredPositional = ["api_key"] ∧
    boundCustomGPTClient.attrs.contains "list_conversations" = false ∧
    boundCustomGPTClient.attrs.contains "update_conversation" = false ∧
    boundCustomGPTClient.attrs.contains "close" = false := by
  decide

/-- C4: an input whose first non-blank line equals the marker only after
stripping surrounding whitespace is NOT treated as an envelope — the code
compares the unstripped line (router.py lines 96-97), so extraction returns
the input unchanged instead of scanning for the begin sentinel (the repo's
own test `test_orchestrate_chat_handles_leading_whitespace_in_header`
expects the payload `"Hello"` here). -/
theorem extract_whitespace_padded_header_not_envelope :
    stripChars (first_non_blank_line whitespacePaddedEnvelope) = ORCHESTRATOR_HEADER.data ∧
    extract_orchestrated_text whitespacePaddedEnvelope = whitespacePaddedEnvelope ∧
    extract_orchestrated_text whitespacePaddedEnvelope ≠ "Hello" := by
  decide

/-- C5 counterexample: a whitespace-only `CUSTOMGPT_API_KEY` is truthy in
Python, so `_load_settings` succeeds — refuting the claim that loading
fails for a blank (whitespace-only) secret. -/
theorem load_settings_whitespace_key_succeeds :
    load_settings [("CUSTOMGPT_API_KEY", " ")] =
      .ok { customgpt_api_key := " "
            customgpt_api_base := "https://app.customgpt.ai/api/v1"
            orchestrator_base_url := none } := by
  rfl

/-- C5 amended: `_load_settings` fails with the configuration error exactly
when `CUSTOMGPT_API_KEY` is unset or set to the empty string; any other
value — whitespace-only included — loads successfully. -/
theorem load_settings_fails_iff_unset_or_empty (env : Env) :
    (load_settings env).isOk = false ↔
      (getenv env "CUSTOMGPT_API_KEY" = none ∨
        getenv env "CUSTOMGPT_API_KEY" = some "") := by
  unfold load_settings
  cases h : getenv env "CUSTOMGPT_API_KEY" with
  | none => simp [h, strOptTruthy, Except.isOk, Except.toBool]
  | some s =>
    by_cases hs : s = ""
    · subst hs
      have he : ("" : String).isEmpty = true := rfl
      simp [h, strOptTruthy, he, Except.isOk, Except.toBool]
    · have hbe : s.isEmpty = false := by
        rw [Bool.eq_false_iff]
        intro hcontra
        exact hs ((String.isEmpty_iff s).mp hcontra)
      simp [h, strOptTruthy, hbe, Except.isOk, Except.toBool, hs]

/-- C6: the three branches of `orchestrate_chat`.  A request with no
user-role message gets HTTP 400 with the handler's fixed detail string
(the empty-list detail when the list is empty); when the latest user
message extracts to the empty string the handler raises the bare 204; and
otherwise it returns the pipeline response built from the extracted
text. -/
theorem orchestrate_chat_branches (req : ChatRequest) :
    ((∀ m ∈ req.messages, m.role ≠ Role.user) →
      orchestrate_chat req =
        .httpError 400
          (if req.messages.isEmpty then
            "Conversation history must include at least one message."
          else "At least one user message is required to generate a response.")) ∧
    (∀ m, get_latest_user_message req.messages = some m →
      extract_orchestrated_text m.content = "" → orchestrate_chat req = .noContent) ∧
    (∀ m, get_latest_user_message req.messages = some m →
      extract_orchestrated_text m.content ≠ "" →
      orchestrate_chat req =
        .ok (pipeline_response req.conversation_id
          (extract_orchestrated_text m.content))) := by
  refine ⟨?_, ?_, ?_⟩
  · intro hno
    have hfind : get_latest_user_message req.messages = none := by
      unfold get_latest_user_message
      rw [List.find?_eq_none]
      intro m hm
      simpa using hno m (List.mem_reverse.mp hm)
    cases hemp : req.messages.isEmpty with
    | true => simp [orchestrate_chat, hemp]
    | false => simp [orchestrate_chat, hemp, hfind]
  · intro m hm hext
    have hne : req.messages ≠ [] := by
      intro h0
      rw [h0] at hm
      simp [get_latest_user_message] at hm
    have hemp : req.messages.isEmpty = false := by
      simpa [List.isEmpty_iff] using hne
    simp [orchestrate_chat, hemp, hm, hext]
  · intro m hm hext
    have hne : req.messages ≠ [] := by
      intro h0
      rw [h0] at hm
      simp [get_latest_user_message] at hm
    have hemp : req.messages.isEmpty = false := by
      simpa [List.isEmpty_iff] using hne
    simp [orchestrate_chat, hemp, hm, hext]

/-- C6 witness: the branches at concrete requests — an assistant-only
history (400), an empty envelope (204) and a plain message (200). -/
theorem orchestrate_chat_branches_witness :
    orchestrate_chat ⟨"c1", [⟨Role.assistant, "hi"⟩]⟩ =
      .httpError 400 "At least one user message is required to generate a response." ∧
    orchestrate_chat
        ⟨"c2", [⟨Role.user, "[ORCHESTRATOR → A.C.E]\nUSER_TEXT_BEGIN\nUSER_TEXT_END"⟩]⟩ =
      .noContent ∧
    orchestrate_chat ⟨"c3", [⟨Role.user, "hi"⟩]⟩ =
      .ok (pipeline_response "c3" (extract_orchestrated_text "hi")) := by
  refine ⟨?_, ?_, ?_⟩
  · have h := (orchestrate_chat_branches ⟨"c1", [⟨Role.assistant, "hi"⟩]⟩).1 (by decide)
    simpa using h
  · exact (orchestrate_chat_branches
      ⟨"c2", [⟨Role.user, "[ORCHESTRATOR → A.C.E]\nUSER_TEXT_BEGIN\nUSER_TEXT_END"⟩]⟩).2.1
      ⟨Role.user, "[ORCHESTRATOR → A.C.E]\nUSER_TEXT_BEGIN\nUSER_TEXT_END"⟩
      (by decide) (by decide)
  · exact (orchestrate_chat_branches ⟨"c3", [⟨Role.user, "hi"⟩]⟩).2.2
      ⟨Role.user, "hi"⟩ (by decide) (by decide)

/-- C7: a chat request whose only message is the user message `"topic"`
yields exactly 4 steps in the order researcher, planner, builder, reviewer;
the first step's output is `"Researching: topic"`, and the reply is the four
stage outputs joined by blank lines. -/
theorem orchestrate_chat_topic_four_steps :
    orchestrate_chat ⟨"conv-1", [⟨Role.user, "topic"⟩]⟩ =
      .ok (pipeline_response "conv-1" "topic") ∧
    (pipeline_response "conv-1" "topic").steps.length = 4 ∧
    (pipeline_response "conv-1" "topic").steps.map ChatStep.agent =
      ["researcher", "planner", "builder", "reviewer"] ∧
    ((pipeline_response "conv-1" "topic").steps.map ChatStep.output).head? =
      some "Researching: topic" ∧
    (pipeline_response "conv-1" "topic").reply =
      joinBlankLine ((pipeline_response "conv-1" "topic").steps.map ChatStep.output) := by
  decide

/-- C8: `_load_settings` reads the base-URL override only from
`CUSTOMGPT_API_BASE` (config.py line 30); with the legacy variable
`CUSTOMGPT_BASE_URL` set (and the new one unset) it still returns the
hard-coded default, contradicting the claim — and the repo's own test
`test_falls_back_to_legacy_variable` — that the legacy name is accepted. -/
theorem load_settings_ignores_legacy_base_url :
    load_settings
        [("CUSTOMGPT_API_KEY", "key"),
         ("CUSTOMGPT_BASE_URL", "https://legacy.example.com")] =
      .ok { customgpt_api_key := "key"
            customgpt_api_base := "https://app.customgpt.ai/api/v1"
            orchestrator_base_url := none } ∧
    getenv
        [("CUSTOMGPT_API_KEY", "key"),
         ("CUSTOMGPT_BASE_URL", "https://legacy.example.com")]
        "CUSTOMGPT_BASE_URL" = some "https://legacy.example.com" :=
  ⟨rfl, rfl⟩

/-- C9: envelope extraction on the two exact inputs of the spec — the empty
envelope yields `""` and the `"Hello"` envelope yields `"Hello"`. -/
theorem extract_exact_envelope_inputs :
    extract_orchestrated_text
        "[ORCHESTRATOR → A.C.E]\nUSER_TEXT_BEGIN\nUSER_TEXT_END" = "" ∧
    extract_orchestrated_text
        "[ORCHESTRATOR → A.C.E]\nUSER_TEXT_BEGIN\nHello\nUSER_TEXT_END" = "Hello" := by
  decide

/-- C10: when the (unstripped) first non-blank line of the input is not the
marker header, extraction returns the input unchanged verbatim, and
extraction is therefore idempotent on such inputs. -/
theorem extract_plain_text_idempotent (x : String)
    (h : first_non_blank_line x ≠ ORCHESTRATOR_HEADER.data) :
    extract_orchestrated_text x = x ∧
    extract_orchestrated_text (extract_orchestrated_text x) =
      extract_orchestrated_text x := by
  have hx : extract_orchestrated_text x = x := by
    unfold extract_orchestrated_text
    exact if_pos h
  exact ⟨hx, by rw [hx]; exact hx⟩

/-- C10 witness: the idempotence theorem at the plain input
`"hello world"`. -/
theorem extract_plain_text_idempotent_witness :
    first_non_blank_line "hello world" ≠ ORCHESTRATOR_HEADER.data ∧
    extract_orchestrated_text "hello world" = "hello world" ∧
    extract_orchestrated_text (extract_orchestrated_text "hello world") =
      extract_orchestrated_text "hello world" := by
  have h : first_non_blank_line "hello world" ≠ ORCHESTRATOR_HEADER.data := by decide
  exact ⟨h, (extract_plain_text_idempotent "hello world" h).1,
    (extract_plain_text_idempotent "hello world" h).2⟩

end Orchestrator
